import Mathlib

/-!
Shallow embedding of `compile.py`, a three-stage model-compilation pipeline
(download a YOLO model, export it to ONNX, compile the ONNX file to a
TensorRT engine with `trtexec`), together with proofs of the specified
properties of its pipeline controller and stage functions.

The filesystem is modelled as an association list from paths to file sizes.
External collaborators (the Ultralytics YOLO API and the `trtexec`
executable) are modelled by an oracle `Env` fixing, for one run, whether
each external call raises, its exit code, its error text, and which files
it writes.  Each stage function returns a `StageResult`: the list of
external calls it performed (each paired with the filesystem state at the
moment of the call), the resulting filesystem, the lines it printed, and
`some c` when it called `sys.exit(c)` (`none` meaning it returned
normally; a run of `main` with `exit = none` terminates with process
status 0).
-/

/-- A filesystem: association list from file path to file size in bytes. -/
abbrev FS := List (String × Nat)

/-- Look up the size of the file at path `p`, or `none` when absent. -/
def fsLookup : FS → String → Option Nat
  | [], _ => none
  | (q, sz) :: rest, p => if q = p then some sz else fsLookup rest p

/-- Python `Path.exists()`. -/
def fsExists (fs : FS) (p : String) : Bool :=
  (fsLookup fs p).isSome

/-- Remove the entry at path `p`. -/
def fsErase : FS → String → FS
  | [], _ => []
  | (q, sz) :: rest, p => if q = p then fsErase rest p else (q, sz) :: fsErase rest p

/-- Create or overwrite the file at path `p` with size `sz`. -/
def fsWrite (fs : FS) (p : String) (sz : Nat) : FS :=
  (p, sz) :: fsErase fs p

/-- Python `Path.rename`: move the file at `src` to `dst` (no-op when `src`
is absent; the code only renames after an existence check). -/
def fsRename (fs : FS) (src dst : String) : FS :=
  match fsLookup fs src with
  | some sz => fsWrite (fsErase fs src) dst sz
  | none => fs

/-- One observable external call made by the pipeline.  `yoloLoad`,
`toDevice`, `save` and `exportCall` are calls into the Ultralytics API;
`runProc` is `subprocess.run` with its argument list and its
`capture_output` setting; the three `stage*` constructors mark the
controller invoking a stage function (lines 104, 110 and 116 of
`compile.py`) with the arguments it passes. -/
inductive Event where
  | yoloLoad (src : String)
  | toDevice (dev : String)
  | save (path : String)
  | exportCall (fmt : String) (simplify : Bool) (opset : Nat) (verbose : Bool)
  | runProc (cmd : List String) (captureOutput : Bool)
  | stageDownload (name dir : String)
  | stageExport (pt onnx : String)
  | stageCompile (onnx engine precision : String)
deriving DecidableEq, Repr

/-- Oracle for the external world during one run: whether each external
call raises an exception, the exception/stream text, the exit codes of the
two `trtexec` subprocesses, and which files the collaborators write. -/
structure Env where
  /-- `YOLO(model_name)` in `download_model` returns without raising. -/
  yoloLoadOk : Bool
  /-- `model.to("cpu")` returns without raising. -/
  toCpuOk : Bool
  /-- `model.save(pt_path)` returns without raising. -/
  saveOk : Bool
  /-- Size of the `.pt` file a successful `model.save` writes. -/
  downloadSize : Nat
  /-- Text of the exception raised inside `download_model`, if any. -/
  downloadErr : String
  /-- `YOLO(pt_model_path)` in `export_to_onnx` returns without raising. -/
  exportLoadOk : Bool
  /-- `model.export(...)` returns without raising. -/
  exportCallOk : Bool
  /-- File name (in the current working directory) at which a successful
  `model.export` writes its output; the exporter chooses this name. -/
  exportOutName : String
  /-- Size of the file a successful `model.export` writes. -/
  exportOutSize : Nat
  /-- Text of the exception raised inside `export_to_onnx`, if any. -/
  exportErr : String
  /-- `subprocess.run(["trtexec", "--version"], ...)` raises (e.g. the
  executable is not on the PATH). -/
  probeRaises : Bool
  /-- Return code of the `trtexec --version` probe when it does not raise. -/
  probeExit : Nat
  /-- `subprocess.run(trtexec_cmd, ...)` raises. -/
  compileRaises : Bool
  /-- Return code of the real `trtexec` compile subprocess. -/
  compileExit : Nat
  /-- Captured standard output of the compile subprocess. -/
  compileStdout : String
  /-- Captured standard error of the compile subprocess. -/
  compileStderr : String
  /-- Whether the compile subprocess leaves a file at the engine path. -/
  compileWritesEngine : Bool
  /-- Size of the engine file when the compile subprocess writes one. -/
  engineSize : Nat
  /-- Text of the exception raised inside `convert_onnx_to_engine`, if any. -/
  convertErr : String
deriving Repr

/-- Result of running a stage function (or `main`): the external calls
made (each with the filesystem at the time of the call), the final
filesystem, the printed lines, and `some c` when `sys.exit(c)` was
called (`none`: returned normally, i.e. process status 0 if this is the
whole run). -/
structure StageResult where
  trace : List (Event × FS)
  fs : FS
  out : List String
  exit : Option Nat
deriving Repr

/-- Sequencing of `main`: run the continuation only when the first part
did not call `sys.exit`. -/
def andThen (r : StageResult) (k : FS → StageResult) : StageResult :=
  match r.exit with
  | some _ => r
  | none =>
      let r2 := k r.fs
      { trace := r.trace ++ r2.trace, fs := r2.fs, out := r.out ++ r2.out, exit := r2.exit }

/-- Record that the controller invoked a stage (the call sites in
`main`) in front of the trace of the stage itself. -/
def mark (e : Event) (fs : FS) (r : StageResult) : StageResult :=
  { r with trace := (e, fs) :: r.trace }

/-- `download_model(model_name, save_path)` (lines 10-24): load the model
through the Ultralytics API, move it to CPU, save it to
`save_path/model_name.pt`; on any exception print the error and
`sys.exit(1)`. -/
def download_model (model_name save_path : String) (env : Env) (fs : FS) : StageResult :=
  let pt_path := save_path ++ "/" ++ model_name ++ ".pt"
  if env.yoloLoadOk then
    if env.toCpuOk then
      if env.saveOk then
        { trace := [(.yoloLoad model_name, fs), (.toDevice "cpu", fs), (.save pt_path, fs)],
          fs := fsWrite fs pt_path env.downloadSize,
          out := ["Descargando el modelo " ++ model_name ++ "...",
                  "Modelo descargado y guardado en " ++ pt_path],
          exit := none }
      else
        { trace := [(.yoloLoad model_name, fs), (.toDevice "cpu", fs), (.save pt_path, fs)],
          fs := fs,
          out := ["Descargando el modelo " ++ model_name ++ "...",
                  "Error al descargar el modelo: " ++ env.downloadErr],
          exit := some 1 }
    else
      { trace := [(.yoloLoad model_name, fs), (.toDevice "cpu", fs)],
        fs := fs,
        out := ["Descargando el modelo " ++ model_name ++ "...",
                "Error al descargar el modelo: " ++ env.downloadErr],
        exit := some 1 }
  else
    { trace := [(.yoloLoad model_name, fs)],
      fs := fs,
      out := ["Descargando el modelo " ++ model_name ++ "...",
              "Error al descargar el modelo: " ++ env.downloadErr],
      exit := some 1 }

/-- `export_to_onnx(pt_model_path, onnx_model_path)` (lines 26-52): load
the saved model, call `model.export(format="onnx", simplify=True,
opset=14, verbose=False)`; the exporter writes its output at a name of
its own choosing in the current working directory; the code then checks
the literal path `"yolov8n.onnx"` and renames it to `onnx_model_path`,
or prints a failure notice and exits 1 when that literal path is absent;
any exception also leads to `sys.exit(1)`. -/
def export_to_onnx (pt_model_path onnx_model_path : String) (env : Env) (fs : FS) : StageResult :=
  if env.exportLoadOk then
    if env.exportCallOk then
      let fs1 := fsWrite fs env.exportOutName env.exportOutSize
      if fsExists fs1 "yolov8n.onnx" then
        { trace := [(.yoloLoad pt_model_path, fs), (.exportCall "onnx" true 14 false, fs)],
          fs := fsRename fs1 "yolov8n.onnx" onnx_model_path,
          out := ["Exportando el modelo " ++ pt_model_path ++ " a ONNX...",
                  "Modelo exportado a ONNX y guardado en " ++ onnx_model_path],
          exit := none }
      else
        { trace := [(.yoloLoad pt_model_path, fs), (.exportCall "onnx" true 14 false, fs)],
          fs := fs1,
          out := ["Exportando el modelo " ++ pt_model_path ++ " a ONNX...",
                  "Exportación a ONNX falló: archivo .onnx no encontrado."],
          exit := some 1 }
    else
      { trace := [(.yoloLoad pt_model_path, fs), (.exportCall "onnx" true 14 false, fs)],
        fs := fs,
        out := ["Exportando el modelo " ++ pt_model_path ++ " a ONNX...",
                "Error al exportar a ONNX: " ++ env.exportErr],
        exit := some 1 }
  else
    { trace := [(.yoloLoad pt_model_path, fs)],
      fs := fs,
      out := ["Exportando el modelo " ++ pt_model_path ++ " a ONNX...",
              "Error al exportar a ONNX: " ++ env.exportErr],
      exit := some 1 }

/-- The `trtexec` command list built at lines 72-77. -/
def trtexec_cmd (onnx_model_path engine_path precision : String) : List String :=
  ["trtexec",
   "--onnx=" ++ onnx_model_path,
   "--saveEngine=" ++ engine_path,
   "--" ++ precision]

/-- `convert_onnx_to_engine(onnx_model_path, engine_path, precision)`
(lines 54-90): probe `trtexec --version`; exit 1 when the probe raises or
returns non-zero; otherwise run the built `trtexec` command as a blocking
subprocess with output captured, exit 1 (printing the captured standard
error) when it returns non-zero. -/
def convert_onnx_to_engine (onnx_model_path engine_path precision : String)
    (env : Env) (fs : FS) : StageResult :=
  let out0 := "Convirtiendo " ++ onnx_model_path ++
    " a TensorRT .engine con precisión " ++ precision ++ "..."
  if env.probeRaises then
    { trace := [(.runProc ["trtexec", "--version"] true, fs)],
      fs := fs,
      out := [out0, "Error al convertir a TensorRT: " ++ env.convertErr],
      exit := some 1 }
  else if env.probeExit = 0 then
    let cmd := trtexec_cmd onnx_model_path engine_path precision
    let out1 := "Ejecutando comando: " ++ " ".intercalate cmd
    if env.compileRaises then
      { trace := [(.runProc ["trtexec", "--version"] true, fs), (.runProc cmd true, fs)],
        fs := fs,
        out := [out0, out1, "Error al convertir a TensorRT: " ++ env.convertErr],
        exit := some 1 }
    else
      let fs1 := if env.compileWritesEngine then fsWrite fs engine_path env.engineSize else fs
      if env.compileExit = 0 then
        { trace := [(.runProc ["trtexec", "--version"] true, fs), (.runProc cmd true, fs)],
          fs := fs1,
          out := [out0, out1,
                  "Conversión a TensorRT .engine completada y guardada en " ++ engine_path],
          exit := none }
      else
        { trace := [(.runProc ["trtexec", "--version"] true, fs), (.runProc cmd true, fs)],
          fs := fs1,
          out := [out0, out1, "Error en trtexec:\n" ++ env.compileStderr],
          exit := some 1 }
  else
    { trace := [(.runProc ["trtexec", "--version"] true, fs)],
      fs := fs,
      out := [out0,
        "Error: trtexec no está disponible. Asegúrate de que TensorRT esté instalado y que trtexec esté en tu PATH."],
      exit := some 1 }

/-- Paso 1 of `main` (lines 102-106): invoke `download_model` only when
the `.pt` path does not already exist, else print a skip notice. -/
def paso1 (model_name save_directory : String) (env : Env) (fs : FS) : StageResult :=
  let pt_model_path := save_directory ++ "/" ++ model_name ++ ".pt"
  if fsExists fs pt_model_path then
    { trace := [], fs := fs,
      out := ["El modelo PyTorch ya existe en " ++ pt_model_path ++ ". Saltando descarga."],
      exit := none }
  else
    mark (.stageDownload model_name save_directory) fs
      (download_model model_name save_directory env fs)

/-- Paso 2 of `main` (lines 108-112): invoke `export_to_onnx` only when
the `.onnx` path does not already exist. -/
def paso2 (model_name save_directory : String) (env : Env) (fs : FS) : StageResult :=
  let pt_model_path := save_directory ++ "/" ++ model_name ++ ".pt"
  let onnx_model_path := save_directory ++ "/" ++ model_name ++ ".onnx"
  if fsExists fs onnx_model_path then
    { trace := [], fs := fs,
      out := ["El modelo ONNX ya existe en " ++ onnx_model_path ++ ". Saltando exportación."],
      exit := none }
  else
    mark (.stageExport pt_model_path onnx_model_path) fs
      (export_to_onnx pt_model_path onnx_model_path env fs)

/-- Paso 3 of `main` (lines 114-118): invoke `convert_onnx_to_engine`
with precision `"fp16"` only when the `.engine` path does not already
exist. -/
def paso3 (model_name save_directory : String) (env : Env) (fs : FS) : StageResult :=
  let onnx_model_path := save_directory ++ "/" ++ model_name ++ ".onnx"
  let engine_model_path := save_directory ++ "/" ++ model_name ++ ".engine"
  if fsExists fs engine_model_path then
    { trace := [], fs := fs,
      out := ["El modelo TensorRT .engine ya existe en " ++ engine_model_path ++
        ". Saltando conversión."],
      exit := none }
  else
    mark (.stageCompile onnx_model_path engine_model_path "fp16") fs
      (convert_onnx_to_engine onnx_model_path engine_model_path "fp16" env fs)

/-- `main()` (lines 92-118) with the two constants of lines 94-95 (the
model name `"yolov8n"` and the save directory `"./models"`) taken as
parameters so that the path computation can be stated for every
identifier and directory; `pipeline_main` below fixes them to the
source values.  Runs the three steps in order, each step passing its
resulting filesystem to the next, stopping at the first `sys.exit`. -/
def mainGen (model_name save_directory : String) (env : Env) (fs : FS) : StageResult :=
  andThen (paso1 model_name save_directory env fs)
    (fun fs1 =>
      andThen (paso2 model_name save_directory env fs1)
        (fun fs2 => paso3 model_name save_directory env fs2))

/-- `main()` with the hardcoded model name and save directory of the source. -/
def pipeline_main (env : Env) (fs : FS) : StageResult :=
  mainGen "yolov8n" "./models" env fs

/-- A benign environment: every external call succeeds, the exporter
writes the default name the code expects, both subprocesses exit 0. -/
def env0 : Env :=
  { yoloLoadOk := true, toCpuOk := true, saveOk := true,
    downloadSize := 1, downloadErr := "",
    exportLoadOk := true, exportCallOk := true,
    exportOutName := "yolov8n.onnx", exportOutSize := 1, exportErr := "",
    probeRaises := false, probeExit := 0,
    compileRaises := false, compileExit := 0,
    compileStdout := "", compileStderr := "",
    compileWritesEngine := true, engineSize := 1, convertErr := "" }

/-- Filesystem in which all three artifacts of the hardcoded run exist. -/
def fsAll : FS :=
  [("./models/yolov8n.pt", 1), ("./models/yolov8n.onnx", 1), ("./models/yolov8n.engine", 1)]

/-- Filesystem with an existing but empty serialized model, no interchange
artifact, and a stale engine. -/
def fsStale : FS :=
  [("./models/yolov8n.pt", 0), ("./models/yolov8n.engine", 1)]

lemma fsLookup_fsWrite_self (fs : FS) (p : String) (sz : Nat) :
    fsLookup (fsWrite fs p sz) p = some sz := by
  simp [fsWrite, fsLookup]

lemma fsExists_fsWrite_self (fs : FS) (p : String) (sz : Nat) :
    fsExists (fsWrite fs p sz) p = true := by
  simp [fsExists, fsLookup_fsWrite_self]

lemma fsExists_fsRename_dst (fs : FS) (src dst : String)
    (h : fsExists fs src = true) : fsExists (fsRename fs src dst) dst = true := by
  unfold fsExists at h
  unfold fsRename
  cases hl : fsLookup fs src with
  | none => rw [hl] at h; simp at h
  | some sz => simp [fsExists_fsWrite_self]

lemma mem_andThen_trace {x : Event × FS} {r : StageResult} {k : FS → StageResult} :
    x ∈ (andThen r k).trace ↔ x ∈ r.trace ∨ (r.exit = none ∧ x ∈ (k r.fs).trace) := by
  unfold andThen
  cases h : r.exit <;> simp [h]

lemma andThen_exit_none {r : StageResult} {k : FS → StageResult}
    (h : (andThen r k).exit = none) : r.exit = none := by
  cases hr : r.exit with
  | none => rfl
  | some c => simp [andThen, hr] at h

lemma download_trace_spec {n d : String} {env : Env} {fs : FS} {e : Event} {f : FS}
    (h : (e, f) ∈ (download_model n d env fs).trace) :
    (e = .yoloLoad n ∨ e = .toDevice "cpu" ∨ e = .save (d ++ "/" ++ n ++ ".pt")) ∧ f = fs := by
  cases h1 : env.yoloLoadOk <;> cases h2 : env.toCpuOk <;> cases h3 : env.saveOk <;>
    simp_all [download_model] <;> tauto

lemma download_exit_none_fs {n d : String} {env : Env} {fs : FS}
    (h : (download_model n d env fs).exit = none) :
    (download_model n d env fs).fs = fsWrite fs (d ++ "/" ++ n ++ ".pt") env.downloadSize := by
  cases h1 : env.yoloLoadOk <;> cases h2 : env.toCpuOk <;> cases h3 : env.saveOk <;>
    simp_all [download_model]

lemma export_trace_spec {pt onnx : String} {env : Env} {fs : FS} {e : Event} {f : FS}
    (h : (e, f) ∈ (export_to_onnx pt onnx env fs).trace) :
    (e = .yoloLoad pt ∨ e = .exportCall "onnx" true 14 false) ∧ f = fs := by
  cases h1 : env.exportLoadOk <;> cases h2 : env.exportCallOk <;>
    simp_all [export_to_onnx] <;>
    (try (split at h <;> simp_all)) <;> tauto

lemma export_exit_none_fs {pt onnx : String} {env : Env} {fs : FS}
    (h : (export_to_onnx pt onnx env fs).exit = none) :
    fsExists (export_to_onnx pt onnx env fs).fs onnx = true := by
  cases h1 : env.exportLoadOk <;> cases h2 : env.exportCallOk <;>
    simp_all [export_to_onnx]
  split at h
  case isTrue hex =>
    simp_all [fsExists_fsRename_dst _ _ _ hex]
  case isFalse hex => simp_all

lemma convert_trace_spec {o g p : String} {env : Env} {fs : FS} {e : Event} {f : FS}
    (h : (e, f) ∈ (convert_onnx_to_engine o g p env fs).trace) :
    e = .runProc ["trtexec", "--version"] true ∨ e = .runProc (trtexec_cmd o g p) true := by
  cases h1 : env.probeRaises <;> by_cases h2 : env.probeExit = 0 <;>
    cases h3 : env.compileRaises <;> by_cases h4 : env.compileExit = 0 <;>
    simp_all [convert_onnx_to_engine] <;> tauto

@[simp] lemma mark_trace (e : Event) (fs : FS) (r : StageResult) :
    (mark e fs r).trace = (e, fs) :: r.trace := rfl

@[simp] lemma mark_fs (e : Event) (fs : FS) (r : StageResult) :
    (mark e fs r).fs = r.fs := rfl

@[simp] lemma mark_exit (e : Event) (fs : FS) (r : StageResult) :
    (mark e fs r).exit = r.exit := rfl

lemma paso1_exit_none_fs {mn sd : String} {env : Env} {fs : FS}
    (h : (paso1 mn sd env fs).exit = none) :
    fsExists (paso1 mn sd env fs).fs (sd ++ "/" ++ mn ++ ".pt") = true := by
  unfold paso1 at h ⊢
  by_cases hc : fsExists fs (sd ++ "/" ++ mn ++ ".pt") = true
  · simp [hc]
  · simp only [if_neg hc, mark_exit, mark_fs] at h ⊢
    rw [download_exit_none_fs h]
    exact fsExists_fsWrite_self _ _ _

lemma paso2_exit_none_fs {mn sd : String} {env : Env} {fs : FS}
    (h : (paso2 mn sd env fs).exit = none) :
    fsExists (paso2 mn sd env fs).fs (sd ++ "/" ++ mn ++ ".onnx") = true := by
  unfold paso2 at h ⊢
  by_cases hc : fsExists fs (sd ++ "/" ++ mn ++ ".onnx") = true
  · simp [hc]
  · simp only [if_neg hc, mark_exit, mark_fs] at h ⊢
    exact export_exit_none_fs h

lemma paso1_trace_spec {mn sd : String} {env : Env} {fs : FS} {e : Event} {f : FS}
    (h : (e, f) ∈ (paso1 mn sd env fs).trace) :
    (e = .stageDownload mn sd ∧ f = fs ∧
      fsExists fs (sd ++ "/" ++ mn ++ ".pt") = false) ∨
    ((e = .yoloLoad mn ∨ e = .toDevice "cpu" ∨ e = .save (sd ++ "/" ++ mn ++ ".pt")) ∧ f = fs) := by
  unfold paso1 at h
  by_cases hc : fsExists fs (sd ++ "/" ++ mn ++ ".pt") = true
  · simp [hc] at h
  · simp only [if_neg hc, mark_trace, List.mem_cons] at h
    rcases h with h | h
    · rw [Prod.mk.injEq] at h
      exact Or.inl ⟨h.1, h.2, by simpa using hc⟩
    · exact Or.inr (download_trace_spec h)

lemma paso2_trace_spec {mn sd : String} {env : Env} {fs : FS} {e : Event} {f : FS}
    (h : (e, f) ∈ (paso2 mn sd env fs).trace) :
    (e = .stageExport (sd ++ "/" ++ mn ++ ".pt") (sd ++ "/" ++ mn ++ ".onnx") ∧ f = fs ∧
      fsExists fs (sd ++ "/" ++ mn ++ ".onnx") = false) ∨
    (e = .yoloLoad (sd ++ "/" ++ mn ++ ".pt") ∨ e = .exportCall "onnx" true 14 false) := by
  unfold paso2 at h
  by_cases hc : fsExists fs (sd ++ "/" ++ mn ++ ".onnx") = true
  · simp [hc] at h
  · simp only [if_neg hc, mark_trace, List.mem_cons] at h
    rcases h with h | h
    · rw [Prod.mk.injEq] at h
      exact Or.inl ⟨h.1, h.2, by simpa using hc⟩
    · exact Or.inr (export_trace_spec h).1

lemma paso3_trace_spec {mn sd : String} {env : Env} {fs : FS} {e : Event} {f : FS}
    (h : (e, f) ∈ (paso3 mn sd env fs).trace) :
    (e = .stageCompile (sd ++ "/" ++ mn ++ ".onnx") (sd ++ "/" ++ mn ++ ".engine") "fp16" ∧
      f = fs ∧ fsExists fs (sd ++ "/" ++ mn ++ ".engine") = false) ∨
    (e = .runProc ["trtexec", "--version"] true ∨
      e = .runProc
        (trtexec_cmd (sd ++ "/" ++ mn ++ ".onnx") (sd ++ "/" ++ mn ++ ".engine") "fp16") true) := by
  unfold paso3 at h
  by_cases hc : fsExists fs (sd ++ "/" ++ mn ++ ".engine") = true
  · simp [hc] at h
  · simp only [if_neg hc, mark_trace, List.mem_cons] at h
    rcases h with h | h
    · rw [Prod.mk.injEq] at h
      exact Or.inl ⟨h.1, h.2, by simpa using hc⟩
    · exact Or.inr (convert_trace_spec h)

/-- Master characterization of the controller trace: every external call
or stage invocation recorded by a run of `mainGen` is one of the six
shapes below, and each stage invocation happens only when its output is
absent and (for steps 2 and 3) its input artifact exists in the
filesystem state passed to it. -/
lemma mainGen_trace_spec {mn sd : String} {env : Env} {fs : FS} {e : Event} {f : FS}
    (h : (e, f) ∈ (mainGen mn sd env fs).trace) :
    (e = .stageDownload mn sd ∧ f = fs ∧
      fsExists fs (sd ++ "/" ++ mn ++ ".pt") = false) ∨
    ((e = .yoloLoad mn ∨ e = .toDevice "cpu" ∨ e = .save (sd ++ "/" ++ mn ++ ".pt")) ∧ f = fs) ∨
    (e = .stageExport (sd ++ "/" ++ mn ++ ".pt") (sd ++ "/" ++ mn ++ ".onnx") ∧
      fsExists f (sd ++ "/" ++ mn ++ ".pt") = true ∧
      fsExists f (sd ++ "/" ++ mn ++ ".onnx") = false) ∨
    (e = .yoloLoad (sd ++ "/" ++ mn ++ ".pt") ∨ e = .exportCall "onnx" true 14 false) ∨
    (e = .stageCompile (sd ++ "/" ++ mn ++ ".onnx") (sd ++ "/" ++ mn ++ ".engine") "fp16" ∧
      fsExists f (sd ++ "/" ++ mn ++ ".onnx") = true ∧
      fsExists f (sd ++ "/" ++ mn ++ ".engine") = false) ∨
    (e = .runProc ["trtexec", "--version"] true ∨
      e = .runProc
        (trtexec_cmd (sd ++ "/" ++ mn ++ ".onnx") (sd ++ "/" ++ mn ++ ".engine") "fp16") true) := by
  unfold mainGen at h
  rw [mem_andThen_trace] at h
  rcases h with h | ⟨hx1, h⟩
  · rcases paso1_trace_spec h with ha | hb
    · exact Or.inl ha
    · exact Or.inr (Or.inl hb)
  · try simp only at h
    have h1fs := paso1_exit_none_fs hx1
    rw [mem_andThen_trace] at h
    rcases h with h | ⟨hx2, h⟩
    · rcases paso2_trace_spec h with ⟨he, hf, hc⟩ | hb
      · refine Or.inr (Or.inr (Or.inl ⟨he, ?_, ?_⟩))
        · rw [hf]; exact h1fs
        · rw [hf]; exact hc
      · exact Or.inr (Or.inr (Or.inr (Or.inl hb)))
    · try simp only at h
      have h2fs := paso2_exit_none_fs hx2
      rcases paso3_trace_spec h with ⟨he, hf, hc⟩ | hb
      · refine Or.inr (Or.inr (Or.inr (Or.inr (Or.inl ⟨he, ?_, ?_⟩))))
        · rw [hf]; exact h2fs
        · rw [hf]; exact hc
      · exact Or.inr (Or.inr (Or.inr (Or.inr (Or.inr hb))))

/-- C1: idempotent skip policy — whenever all three artifact files (the
serialized model, the interchange artifact and the compiled engine)
already exist at their computed paths, a run of the pipeline controller
invokes zero stage functions and makes zero external calls (its trace is
empty) and terminates with exit status 0 (it returns normally rather
than calling `sys.exit`). -/
theorem c1_idempotent_skip (mn sd : String) (env : Env) (fs : FS)
    (h1 : fsExists fs (sd ++ "/" ++ mn ++ ".pt") = true)
    (h2 : fsExists fs (sd ++ "/" ++ mn ++ ".onnx") = true)
    (h3 : fsExists fs (sd ++ "/" ++ mn ++ ".engine") = true) :
    (mainGen mn sd env fs).trace = [] ∧ (mainGen mn sd env fs).exit = none := by
  simp [mainGen, paso1, paso2, paso3, andThen, h1, h2, h3]

/-- C1 witness: the hardcoded run on a filesystem holding all three
artifacts makes no call and exits 0. -/
theorem c1_witness :
    fsExists fsAll ("./models" ++ "/" ++ "yolov8n" ++ ".pt") = true ∧
    fsExists fsAll ("./models" ++ "/" ++ "yolov8n" ++ ".onnx") = true ∧
    fsExists fsAll ("./models" ++ "/" ++ "yolov8n" ++ ".engine") = true ∧
    ((mainGen "yolov8n" "./models" env0 fsAll).trace = [] ∧
      (mainGen "yolov8n" "./models" env0 fsAll).exit = none) :=
  ⟨by decide, by decide, by decide,
    c1_idempotent_skip "yolov8n" "./models" env0 fsAll (by decide) (by decide) (by decide)⟩

/-- C2 counterexample: the claim also requires the input artifact to be
non-empty, but the controller checks only existence.  On a filesystem
where the serialized model exists with size 0 (and the interchange
artifact is absent), the controller invokes the Converter anyway: its
stage-invocation event is in the trace while the recorded filesystem
shows the `.pt` input has size 0. -/
theorem c2_counterexample :
    (Event.stageExport "./models/yolov8n.pt" "./models/yolov8n.onnx", fsStale)
      ∈ (pipeline_main env0 fsStale).trace ∧
    fsLookup fsStale "./models/yolov8n.pt" = some 0 := by
  decide

/-- C2 (amended): dependency ordering by existence only — in every run of
the controller, the Converter is invoked only when the serialized-model
file it is given exists in the filesystem at the moment of invocation,
and the Compiler Invoker only when the interchange-artifact file exists
at that moment; the controller never checks that these inputs are
non-empty. -/
theorem c2_dependency_ordering (mn sd : String) (env : Env) (fs : FS) (e : Event) (f : FS)
    (h : (e, f) ∈ (mainGen mn sd env fs).trace) :
    (∀ p o, e = Event.stageExport p o → fsExists f p = true) ∧
    (∀ o g pr, e = Event.stageCompile o g pr → fsExists f o = true) := by
  constructor
  · intro p o hep
    subst hep
    rcases mainGen_trace_spec h with ha | hb | hc | hd | he | hf
    · exact Event.noConfusion ha.1
    · rcases hb.1 with h1 | h1 | h1 <;> exact Event.noConfusion h1
    · obtain ⟨heq, hex, _⟩ := hc
      injection heq with e1 e2
      rw [e1]; exact hex
    · rcases hd with h1 | h1 <;> exact Event.noConfusion h1
    · exact Event.noConfusion he.1
    · rcases hf with h1 | h1 <;> exact Event.noConfusion h1
  · intro o g pr hep
    subst hep
    rcases mainGen_trace_spec h with ha | hb | hc | hd | he | hf
    · exact Event.noConfusion ha.1
    · rcases hb.1 with h1 | h1 | h1 <;> exact Event.noConfusion h1
    · exact Event.noConfusion hc.1
    · rcases hd with h1 | h1 <;> exact Event.noConfusion h1
    · obtain ⟨heq, hex, _⟩ := he
      injection heq with e1 e2 e3
      rw [e1]; exact hex
    · rcases hf with h1 | h1 <;> exact Event.noConfusion h1

/-- C2 witness: in the concrete stale-filesystem run, the Converter
invocation recorded in the trace indeed has an existing `.pt` input. -/
theorem c2_witness :
    (Event.stageExport "./models/yolov8n.pt" "./models/yolov8n.onnx", fsStale)
      ∈ (mainGen "yolov8n" "./models" env0 fsStale).trace ∧
    fsExists fsStale "./models/yolov8n.pt" = true :=
  ⟨by decide,
    (c2_dependency_ordering "yolov8n" "./models" env0 fsStale
        (Event.stageExport "./models/yolov8n.pt" "./models/yolov8n.onnx") fsStale
        (by decide)).1
      "./models/yolov8n.pt" "./models/yolov8n.onnx" rfl⟩

/-- C3 counterexample: the claim says any precision outside
fp32/fp16/int8 is rejected by validation before a flag derived from it
reaches the subprocess, but `convert_onnx_to_engine` performs no
validation at all: called with precision `"turbo9000"`, the subprocess
argument list containing the derived flag `--turbo9000` is invoked, and
the run even completes without any rejection. -/
theorem c3_counterexample :
    (Event.runProc ["trtexec", "--onnx=a.onnx", "--saveEngine=a.engine", "--turbo9000"] true,
        ([] : FS))
      ∈ (convert_onnx_to_engine "a.onnx" "a.engine" "turbo9000" env0 []).trace ∧
    (convert_onnx_to_engine "a.onnx" "a.engine" "turbo9000" env0 []).exit = none := by
  decide

/-- C3 (amended): precision pass-through without validation — whenever
the probe succeeds, the compile subprocess is invoked with exactly the
argument list `trtexec_cmd`, whose last flag is `"--" ++ precision`; so
`fp16` yields exactly the `--fp16` flag and `int8` exactly `--int8`, but
every other precision value is likewise passed through unvalidated. -/
theorem c3_precision_passthrough (o g p : String) (env : Env) (fs : FS)
    (h1 : env.probeRaises = false) (h2 : env.probeExit = 0) :
    (Event.runProc (trtexec_cmd o g p) true, fs)
      ∈ (convert_onnx_to_engine o g p env fs).trace ∧
    ("--" ++ p) ∈ trtexec_cmd o g p := by
  constructor
  · cases h3 : env.compileRaises <;> by_cases h4 : env.compileExit = 0 <;>
      simp_all [convert_onnx_to_engine]
  · simp [trtexec_cmd]

/-- C3 witness: with precision fp16 under a succeeding probe, the
subprocess argument list containing `--fp16` is invoked. -/
theorem c3_witness :
    env0.probeRaises = false ∧ env0.probeExit = 0 ∧
    ((Event.runProc (trtexec_cmd "a.onnx" "a.engine" "fp16") true, ([] : FS))
        ∈ (convert_onnx_to_engine "a.onnx" "a.engine" "fp16" env0 []).trace ∧
      ("--" ++ "fp16") ∈ trtexec_cmd "a.onnx" "a.engine" "fp16") :=
  ⟨rfl, rfl, c3_precision_passthrough "a.onnx" "a.engine" "fp16" env0 [] rfl rfl⟩

/-- Environment in which the `trtexec --version` probe returns a
non-zero exit code. -/
def envNoTool : Env := { env0 with probeExit := 1 }

/-- C4: tool-probe fail-fast — whenever the version probe returns a
non-zero exit code, `convert_onnx_to_engine` exits with status 1 and its
trace consists of the probe alone: the real compile subprocess is never
invoked. -/
theorem c4_probe_failfast (o g p : String) (env : Env) (fs : FS)
    (h1 : env.probeRaises = false) (h2 : env.probeExit ≠ 0) :
    (convert_onnx_to_engine o g p env fs).exit = some 1 ∧
    (convert_onnx_to_engine o g p env fs).trace =
      [(Event.runProc ["trtexec", "--version"] true, fs)] := by
  simp [convert_onnx_to_engine, h1, h2]

/-- C4 witness: a concrete failing probe leads to exit 1 with only the
probe in the trace. -/
theorem c4_witness :
    envNoTool.probeRaises = false ∧ envNoTool.probeExit ≠ 0 ∧
    ((convert_onnx_to_engine "a.onnx" "a.engine" "fp16" envNoTool []).exit = some 1 ∧
      (convert_onnx_to_engine "a.onnx" "a.engine" "fp16" envNoTool []).trace =
        [(Event.runProc ["trtexec", "--version"] true, ([] : FS))]) :=
  ⟨rfl, by decide,
    c4_probe_failfast "a.onnx" "a.engine" "fp16" envNoTool [] rfl (by decide)⟩

/-- C5: converter dual failure modes — an exception while loading the
model, an exception in the export call itself, and the expected default
output file not existing after the export call all make
`export_to_onnx` exit with status 1; and whenever `export_to_onnx`
returns successfully, the canonical interchange-artifact path exists in
the resulting filesystem. -/
theorem c5_converter_failures (pt onnx : String) (env : Env) (fs : FS) :
    (env.exportLoadOk = false → (export_to_onnx pt onnx env fs).exit = some 1) ∧
    (env.exportCallOk = false → (export_to_onnx pt onnx env fs).exit = some 1) ∧
    (fsExists (fsWrite fs env.exportOutName env.exportOutSize) "yolov8n.onnx" = false →
      (export_to_onnx pt onnx env fs).exit = some 1) ∧
    ((export_to_onnx pt onnx env fs).exit = none →
      fsExists (export_to_onnx pt onnx env fs).fs onnx = true) := by
  refine ⟨?_, ?_, ?_, fun h => export_exit_none_fs h⟩ <;>
    intro hx <;> cases h1 : env.exportLoadOk <;> cases h2 : env.exportCallOk <;>
    simp_all [export_to_onnx]

/-- Environment in which `YOLO(pt_model_path)` raises. -/
def envLoadFail : Env := { env0 with exportLoadOk := false }

/-- Environment in which `model.export` raises. -/
def envCallFail : Env := { env0 with exportCallOk := false }

/-- Environment in which the exporter writes a default name different
from the one the code checks. -/
def envWrongName : Env := { env0 with exportOutName := "best.onnx" }

/-- C5 witness: each failure mode exits 1 at a concrete input, and the
concrete successful export populates the canonical path. -/
theorem c5_witness :
    (export_to_onnx "m.pt" "m.onnx" envLoadFail []).exit = some 1 ∧
    (export_to_onnx "m.pt" "m.onnx" envCallFail []).exit = some 1 ∧
    (export_to_onnx "m.pt" "m.onnx" envWrongName []).exit = some 1 ∧
    fsExists (export_to_onnx "m.pt" "m.onnx" env0 []).fs "m.onnx" = true :=
  ⟨(c5_converter_failures "m.pt" "m.onnx" envLoadFail []).1 rfl,
    (c5_converter_failures "m.pt" "m.onnx" envCallFail []).2.1 rfl,
    (c5_converter_failures "m.pt" "m.onnx" envWrongName []).2.2.1 (by decide),
    (c5_converter_failures "m.pt" "m.onnx" env0 []).2.2.2 (by decide)⟩

lemma fsLookup_fsErase_ne (fs : FS) {q p : String} (h : q ≠ p) :
    fsLookup (fsErase fs q) p = fsLookup fs p := by
  induction fs with
  | nil => rfl
  | cons hd tl ih =>
    obtain ⟨r, sz⟩ := hd
    by_cases hr : r = q
    · subst hr
      simp [fsErase, fsLookup, h, ih]
    · simp [fsErase, fsLookup, hr, ih]

lemma fsLookup_fsWrite_ne (fs : FS) {q p : String} (sz : Nat) (h : q ≠ p) :
    fsLookup (fsWrite fs q sz) p = fsLookup fs p := by
  simp [fsWrite, fsLookup, h, fsLookup_fsErase_ne fs h]

/-- C6: the Converter checks the fixed literal path `yolov8n.onnx`,
independent of the serialized-model path it was given: whenever the
export call succeeds but the default output name chosen by the exporter
differs from `yolov8n.onnx` (and no stale file sits at that literal
path), `export_to_onnx` exits with status 1 even though the exporter did
write its output file — and this holds for every serialized-model path
`pt`. -/
theorem c6_default_name_mismatch (pt onnx : String) (env : Env) (fs : FS)
    (h1 : env.exportLoadOk = true) (h2 : env.exportCallOk = true)
    (h3 : env.exportOutName ≠ "yolov8n.onnx")
    (h4 : fsExists fs "yolov8n.onnx" = false) :
    (export_to_onnx pt onnx env fs).exit = some 1 ∧
    fsExists (export_to_onnx pt onnx env fs).fs env.exportOutName = true := by
  have hne : fsExists (fsWrite fs env.exportOutName env.exportOutSize) "yolov8n.onnx" = false := by
    unfold fsExists at h4 ⊢
    rw [fsLookup_fsWrite_ne fs env.exportOutSize h3]
    exact h4
  constructor
  · simp [export_to_onnx, h1, h2, hne]
  · simp [export_to_onnx, h1, h2, hne, fsExists_fsWrite_self]

/-- Environment whose exporter writes the default name `model.onnx`. -/
def envOtherName : Env := { env0 with exportOutName := "model.onnx" }

/-- C6 witness: a concrete export whose default output name differs from
the literal path exits 1 while its output file was written. -/
theorem c6_witness :
    envOtherName.exportLoadOk = true ∧ envOtherName.exportCallOk = true ∧
    envOtherName.exportOutName ≠ "yolov8n.onnx" ∧
    fsExists [] "yolov8n.onnx" = false ∧
    ((export_to_onnx "weights/custom.pt" "out.onnx" envOtherName []).exit = some 1 ∧
      fsExists (export_to_onnx "weights/custom.pt" "out.onnx" envOtherName []).fs
        envOtherName.exportOutName = true) :=
  ⟨rfl, rfl, by decide, rfl,
    c6_default_name_mismatch "weights/custom.pt" "out.onnx" envOtherName []
      rfl rfl (by decide) rfl⟩

/-- Environment in which the real compile subprocess exits non-zero with
captured standard-error text. -/
def envCompileFail : Env := { env0 with compileExit := 1, compileStderr := "trtexec blew up" }

/-- C7: compilation failure reporting — the real compiler run is a
subprocess call with `capture_output` set (streams captured in full),
and whenever that subprocess exits non-zero, the captured standard-error
content appears verbatim in the diagnostic output and
`convert_onnx_to_engine` exits with status 1. -/
theorem c7_compile_failure_report (o g p : String) (env : Env) (fs : FS)
    (h1 : env.probeRaises = false) (h2 : env.probeExit = 0)
    (h3 : env.compileRaises = false) (h4 : env.compileExit ≠ 0) :
    (convert_onnx_to_engine o g p env fs).exit = some 1 ∧
    ("Error en trtexec:\n" ++ env.compileStderr) ∈ (convert_onnx_to_engine o g p env fs).out ∧
    (Event.runProc (trtexec_cmd o g p) true, fs) ∈ (convert_onnx_to_engine o g p env fs).trace := by
  simp [convert_onnx_to_engine, h1, h2, h3, h4]

/-- C7 witness: a concrete failing compile exits 1 and surfaces the
captured standard-error text. -/
theorem c7_witness :
    envCompileFail.probeRaises = false ∧ envCompileFail.probeExit = 0 ∧
    envCompileFail.compileRaises = false ∧ envCompileFail.compileExit ≠ 0 ∧
    ((convert_onnx_to_engine "a.onnx" "a.engine" "fp16" envCompileFail []).exit = some 1 ∧
      ("Error en trtexec:\n" ++ envCompileFail.compileStderr)
        ∈ (convert_onnx_to_engine "a.onnx" "a.engine" "fp16" envCompileFail []).out ∧
      (Event.runProc (trtexec_cmd "a.onnx" "a.engine" "fp16") true, ([] : FS))
        ∈ (convert_onnx_to_engine "a.onnx" "a.engine" "fp16" envCompileFail []).trace) :=
  ⟨rfl, rfl, rfl, by decide,
    c7_compile_failure_report "a.onnx" "a.engine" "fp16" envCompileFail [] rfl rfl rfl (by decide)⟩

/-- C8: artifact path determinism — in every run of the controller for a
model identifier `mn` and output directory `sd` (over every environment
and starting filesystem, hence identically across repeated runs), the
stage invocations recorded in the trace use exactly the paths
`sd/mn.pt`, `sd/mn.onnx` and `sd/mn.engine`, and the save path computed
independently inside `download_model` by the Acquirer is that same
`sd/mn.pt`. -/
theorem c8_path_determinism (mn sd : String) (env : Env) (fs : FS) (e : Event) (f : FS)
    (h : (e, f) ∈ (mainGen mn sd env fs).trace) :
    (∀ n d, e = Event.stageDownload n d → n = mn ∧ d = sd) ∧
    (∀ p, e = Event.save p → p = sd ++ "/" ++ mn ++ ".pt") ∧
    (∀ p o, e = Event.stageExport p o →
      p = sd ++ "/" ++ mn ++ ".pt" ∧ o = sd ++ "/" ++ mn ++ ".onnx") ∧
    (∀ o g pr, e = Event.stageCompile o g pr →
      o = sd ++ "/" ++ mn ++ ".onnx" ∧ g = sd ++ "/" ++ mn ++ ".engine") := by
  refine ⟨?_, ?_, ?_, ?_⟩
  · intro n d hend
    subst hend
    rcases mainGen_trace_spec h with ha | hb | hc | hd | he | hf <;> simp_all
  · intro p hend
    subst hend
    rcases mainGen_trace_spec h with ha | hb | hc | hd | he | hf <;> simp_all
  · intro p o hend
    subst hend
    rcases mainGen_trace_spec h with ha | hb | hc | hd | he | hf <;> simp_all
  · intro o g pr hend
    subst hend
    rcases mainGen_trace_spec h with ha | hb | hc | hd | he | hf <;> simp_all

/-- C8 witness: in a concrete full run from an empty filesystem, the
Converter invocation recorded in the trace carries exactly the two
computed paths. -/
theorem c8_witness :
    "./models/yolov8n.pt" = "./models" ++ "/" ++ "yolov8n" ++ ".pt" ∧
    "./models/yolov8n.onnx" = "./models" ++ "/" ++ "yolov8n" ++ ".onnx" :=
  (c8_path_determinism "yolov8n" "./models" env0 [] 
      (Event.stageExport "./models/yolov8n.pt" "./models/yolov8n.onnx")
      [("./models/yolov8n.pt", 1)] (by decide)).2.2.1
    "./models/yolov8n.pt" "./models/yolov8n.onnx" rfl

/-- C9: fixed converter configuration — every export call recorded in a
run of `export_to_onnx`, for every caller-supplied serialized-model
path, output path, environment and filesystem, carries the constants
format `"onnx"`, simplify `true`, opset `14` and verbose `false`; none
of these values depends on any caller-supplied parameter. -/
theorem c9_fixed_export_config (pt onnx : String) (env : Env) (fs : FS) (e : Event) (f : FS)
    (h : (e, f) ∈ (export_to_onnx pt onnx env fs).trace) :
    ∀ fmt s op v, e = Event.exportCall fmt s op v →
      fmt = "onnx" ∧ s = true ∧ op = 14 ∧ v = false := by
  intro fmt s op v hev
  subst hev
  rcases (export_trace_spec h).1 with h1 | h1
  · exact Event.noConfusion h1
  · injection h1 with e1 e2 e3 e4
    exact ⟨e1, e2, e3, e4⟩

/-- C9 witness: the concrete export call in a successful run carries
exactly the fixed configuration. -/
theorem c9_witness :
    "onnx" = "onnx" ∧ true = true ∧ (14 : Nat) = 14 ∧ false = false :=
  c9_fixed_export_config "m.pt" "m.onnx" env0 []
    (Event.exportCall "onnx" true 14 false) [] (by decide)
    "onnx" true 14 false rfl

/-- C10: CPU placement before persistence — in every successful run of
`download_model`, the trace is exactly load, move-to-CPU, save (so the
move onto the CPU execution context, at index 1, precedes the save of
the serialized model, at index 2), and the serialized model file is
written at the computed path. -/
theorem c10_cpu_before_save (mn sd : String) (env : Env) (fs : FS)
    (h : (download_model mn sd env fs).exit = none) :
    (download_model mn sd env fs).trace =
      [(Event.yoloLoad mn, fs), (Event.toDevice "cpu", fs),
        (Event.save (sd ++ "/" ++ mn ++ ".pt"), fs)] ∧
    (download_model mn sd env fs).trace.get? 1 = some (Event.toDevice "cpu", fs) ∧
    (download_model mn sd env fs).trace.get? 2 =
      some (Event.save (sd ++ "/" ++ mn ++ ".pt"), fs) ∧
    (download_model mn sd env fs).fs =
      fsWrite fs (sd ++ "/" ++ mn ++ ".pt") env.downloadSize := by
  cases h1 : env.yoloLoadOk <;> cases h2 : env.toCpuOk <;> cases h3 : env.saveOk <;>
    simp_all [download_model]

/-- C10 witness: the concrete successful download run moves the model to
CPU before saving it. -/
theorem c10_witness :
    (download_model "yolov8n" "./models" env0 []).exit = none ∧
    ((download_model "yolov8n" "./models" env0 []).trace =
        [(Event.yoloLoad "yolov8n", ([] : FS)), (Event.toDevice "cpu", ([] : FS)),
          (Event.save ("./models" ++ "/" ++ "yolov8n" ++ ".pt"), ([] : FS))] ∧
      (download_model "yolov8n" "./models" env0 []).trace.get? 1 =
        some (Event.toDevice "cpu", ([] : FS)) ∧
      (download_model "yolov8n" "./models" env0 []).trace.get? 2 =
        some (Event.save ("./models" ++ "/" ++ "yolov8n" ++ ".pt"), ([] : FS)) ∧
      (download_model "yolov8n" "./models" env0 []).fs =
        fsWrite [] ("./models" ++ "/" ++ "yolov8n" ++ ".pt") env0.downloadSize) :=
  ⟨rfl, c10_cpu_before_save "yolov8n" "./models" env0 [] rfl⟩
